import Mathlib

/-!
# Verification of the Telegram bot-data aggregation service (`src/main.py`)

A shallow embedding of the Python service in `main.py`:

* Python strings are lists of Unicode code points (`PyStr := List Nat`);
  `str.lower()` becomes `pyLower` (ASCII lowering, the only case change the
  program's inputs exercise), and Python truthiness of an optional string
  becomes `truthyStr`.
* Python dicts keyed by chat/user id become insertion-ordered association
  lists (`dictSet` overwrites in place, appends new keys at the end, exactly
  as CPython dicts do).
* The platform client is an oracle: one aggregation run consumes a script
  (`List PageResp`) of successive `invoke(GetDifference)` outcomes — a page,
  a `FloodWait`, or an exception; dynamic attribute probing (`hasattr`) is
  modelled by `Option` fields on the raw objects.
* The `/tgusers` handler is a pure function from a request environment to an
  HTTP response together with a trace of session open/close events.
-/

/-- Python strings as lists of Unicode code points. -/
abbrev PyStr := List Nat

/-- Embed a Lean string literal as a `PyStr`. -/
def s2p (s : String) : PyStr := s.toList.map Char.toNat

/-- ASCII lowering of one code point, as in `str.lower()` on the tags the
program handles. -/
def lowerCp (c : Nat) : Nat := if 65 ≤ c ∧ c ≤ 90 then c + 32 else c

/-- `str.lower()`. -/
def pyLower (s : PyStr) : PyStr := s.map lowerCp

/-- Python truthiness of an optional string: `None` and `""` are falsy. -/
def truthyStr : Option PyStr → Bool
  | none => false
  | some s => !s.isEmpty

/-- `a or d` for an optional string `a` and a (total) fallback `d`. -/
def orElseStr (a : Option PyStr) (d : PyStr) : PyStr :=
  match a with
  | some s => if s.isEmpty then d else s
  | none => d

/-- `normalize_chat_type` (main.py:85-92): lowercase the raw tag, then look
it up in `{chat ↦ chat, channel ↦ channel, chatforbidden ↦ chat,
channelforbidden ↦ channel}`; a missing key falls back to the lowercased
tag itself (`type_map.get(raw_type.lower(), raw_type.lower())`). -/
def normalize_chat_type (raw_type : PyStr) : PyStr :=
  let l := pyLower raw_type
  if l = s2p "chat" then s2p "chat"
  else if l = s2p "channel" then s2p "channel"
  else if l = s2p "chatforbidden" then s2p "chat"
  else if l = s2p "channelforbidden" then s2p "channel"
  else l

/-- Output record for a chat (class `Chat`, main.py:19-25). -/
structure Chat where
  id : Int
  members_count : Option Int
  title : PyStr
  type : PyStr
  username : Option PyStr
deriving DecidableEq, Repr

/-- Output record for a user (class `User`, main.py:27-33). -/
structure User where
  id : Int
  first_name : Option PyStr
  last_name : Option PyStr
  username : Option PyStr
  is_premium : Bool
deriving DecidableEq, Repr

/-- Bot self-description (class `BotInfo`, main.py:13-17). -/
structure BotInfo where
  first_name : PyStr
  id : Int
  username : Option PyStr
deriving DecidableEq, Repr

/-- `merge_chat_data` (main.py:95-104): with no existing record the new one
is taken verbatim; otherwise members_count keeps the new value only when it
is not `None`, title keeps the new value unless it is the placeholder
`"Unknown"`, type always takes the new value, and username keeps the new
value only when it is truthy. -/
def merge_chat_data (existing : Option Chat) (new : Chat) : Chat :=
  match existing with
  | none => new
  | some e =>
    { id := e.id
      members_count :=
        match new.members_count with
        | some m => some m
        | none => e.members_count
      title := if new.title = s2p "Unknown" then e.title else new.title
      type := new.type
      username := if truthyStr new.username then new.username else e.username }

/-- Lookup in an insertion-ordered association list (Python `d.get(k)` /
`k in d`). -/
def dictGet {α : Type} : List (Int × α) → Int → Option α
  | [], _ => none
  | (k', v) :: rest, k => if k' = k then some v else dictGet rest k

/-- `k in d` for a Python dict. -/
def dictHas {α : Type} (d : List (Int × α)) (k : Int) : Bool :=
  (dictGet d k).isSome

/-- `d[k] = v` on a Python dict: overwrite in place, append a new key. -/
def dictSet {α : Type} : List (Int × α) → Int → α → List (Int × α)
  | [], k, v => [(k, v)]
  | (k', v') :: rest, k, v =>
    if k' = k then (k, v) :: rest else (k', v') :: dictSet rest k v

/-- `s.add(i)` on a Python set of ids (membership-based, order immaterial to
the program). -/
def setAdd (s : List Int) (i : Int) : List Int :=
  if i ∈ s then s else s ++ [i]

/-- A raw user object from a difference page (`diff.users`). `premium = none`
models the `premium` attribute being absent (`hasattr` probing, spec §9). -/
structure RawUser where
  id : Int
  first_name : Option PyStr
  last_name : Option PyStr
  username : Option PyStr
  premium : Option Bool
deriving DecidableEq, Repr

/-- A raw chat object, either from `diff.chats` or embedded in a new-message
update. `className` is `chat.__class__.__name__`; `none` in an optional
field models an absent attribute; `mtype` is the `.type.name` attribute used
only on the message path (main.py:177), `none` when `chat.type` is falsy. -/
structure RawChat where
  id : Int
  className : PyStr
  members_count : Option Int
  title : Option PyStr
  first_name : Option PyStr
  username : Option PyStr
  mtype : Option PyStr
deriving DecidableEq, Repr

/-- One entry of `diff.new_messages`: whether it is an
`UpdateNewMessage`/`UpdateNewChannelMessage`, and its `message.chat`
(`none` when the chat is falsy). -/
structure MsgUpdate where
  isNewMessage : Bool
  chat : Option RawChat
deriving DecidableEq, Repr

/-- The shape of one `GetDifference` response: `updates.Difference`
(terminal), `updates.DifferenceSlice` with its `intermediate_state` cursor,
or any other shape (`DifferenceEmpty`, `DifferenceTooLong`, ...). -/
inductive DiffKind
  | full
  | slice (pts date qts : Int)
  | other
deriving DecidableEq, Repr

/-- One page returned by `invoke(GetDifference)`. -/
structure DiffPage where
  users : List RawUser
  chats : List RawChat
  new_messages : List MsgUpdate
  kind : DiffKind
deriving DecidableEq, Repr

/-- Accumulator state of `get_chats_and_users` (main.py:108-114). -/
structure AggState where
  chats : List (Int × Chat)
  users : List (Int × User)
  inaccessible : List Int
  pts : Int
  date : Int
  qts : Int
deriving DecidableEq, Repr

/-- The fresh accumulators and initial cursor of each `get_chats_and_users`
call: empty collections, `pts = 1`, `date = 1`, `qts = 1`. -/
def initState : AggState :=
  { chats := [], users := [], inaccessible := [], pts := 1, date := 1, qts := 1 }

/-- Build a `User` record from a raw user (main.py:132-138):
`is_premium = user.premium if hasattr(user, 'premium') else False`. -/
def mkUser (u : RawUser) : User :=
  { id := u.id
    first_name := u.first_name
    last_name := u.last_name
    username := u.username
    is_premium := u.premium.getD false }

/-- `chat.title or chat.first_name or "Unknown"` (main.py:156/181). -/
def chatTitle (c : RawChat) : PyStr :=
  orElseStr c.title (orElseStr c.first_name (s2p "Unknown"))

/-- The `Chat` record built from an entry of `diff.chats` (main.py:152-159). -/
def chatFromRaw (c : RawChat) : Chat :=
  { id := c.id
    members_count := c.members_count
    title := chatTitle c
    type := normalize_chat_type c.className
    username := c.username }

/-- The `Chat` record built from a chat embedded in a new message
(main.py:177-184): the type tag is `chat.type.name if chat.type else
chat.__class__.__name__`. -/
def chatFromMsg (c : RawChat) : Chat :=
  { id := c.id
    members_count := c.members_count
    title := chatTitle c
    type := normalize_chat_type (match c.mtype with | some t => t | none => c.className)
    username := c.username }

/-- `chat.__class__.__name__.lower() in ["chatforbidden", "channelforbidden"]`. -/
def isForbidden (c : RawChat) : Bool :=
  pyLower c.className = s2p "chatforbidden" ||
    pyLower c.className = s2p "channelforbidden"

/-- Handle one raw chat observation (main.py:147-160 and 173-185): skip ids
already recorded or excluded; record forbidden variants in the exclusion
set; otherwise store the (vacuously merged) record and mark that this batch
appended a chat. The boolean tracks `batch_chats` being non-empty. -/
def addChat (mk : RawChat → Chat) (st : AggState × Bool) (c : RawChat) :
    AggState × Bool :=
  let s := st.1
  if dictHas s.chats c.id = true ∨ c.id ∈ s.inaccessible then st
  else if isForbidden c then
    ({ s with inaccessible := setAdd s.inaccessible c.id }, st.2)
  else
    let cd := mk c
    ({ s with chats := dictSet s.chats c.id (merge_chat_data (dictGet s.chats c.id) cd) },
      true)

/-- Handle one entry of `diff.new_messages` (main.py:170-185). -/
def addMsg (st : AggState × Bool) (m : MsgUpdate) : AggState × Bool :=
  if m.isNewMessage then
    match m.chat with
    | some c => addChat chatFromMsg st c
    | none => st
  else st

/-- Process the users, chats and embedded message chats of one page
(main.py:129-192), returning the updated state and whether the page
produced any batch entry (`batch_users or batch_chats` non-empty). -/
def processPage (st : AggState) (p : DiffPage) : AggState × Bool :=
  let st1 := { st with users := p.users.foldl (fun d u => dictSet d u.id (mkUser u)) st.users }
  let r := p.new_messages.foldl addMsg (p.chats.foldl (addChat chatFromRaw) (st1, false))
  (r.1, !p.users.isEmpty || r.2)

/-- Write the slice's intermediate state into the cursor (main.py:200-202
and 209-211). -/
def setCursor (st : AggState) (p d q : Int) : AggState :=
  { st with pts := p, date := d, qts := q }

/-- Outcome of one iteration of the `while True` loop: continue with a new
state, or leave the loop with a final state. -/
inductive StepRes
  | more (st : AggState)
  | done (st : AggState)
deriving DecidableEq, Repr

/-- One iteration of the `while True` loop of `get_chats_and_users`
(main.py:117-215), after the page has been received: process the page, then
branch exactly as the code does — the empty-batch block (main.py:195-203)
breaks on `Difference`, advances the cursor on `DifferenceSlice`, and
`continue`s regardless; the non-empty block (main.py:208-215) advances and
continues on `DifferenceSlice`, breaks on `Difference`, and breaks on any
other shape. -/
def stepPage (st : AggState) (p : DiffPage) : StepRes :=
  let r := processPage st p
  if !r.2 then
    match p.kind with
    | .full => .done r.1
    | .slice a b c => .more (setCursor r.1 a b c)
    | .other => .more r.1
  else
    match p.kind with
    | .slice a b c => .more (setCursor r.1 a b c)
    | .full => .done r.1
    | .other => .done r.1

/-- An exception coming out of a platform call: a pyrogram `RPCError`
(authentication failures included — pyrogram raises them as `RPCError`
subclasses) or any other exception; the payload is `str(e)`. -/
inductive PlatformErr
  | rpc (msg : PyStr)
  | exc (msg : PyStr)
deriving DecidableEq, Repr

/-- `str(e)` of a platform exception. -/
def errStr : PlatformErr → PyStr
  | .rpc m => m
  | .exc m => m

/-- Outcome of one `invoke(GetDifference)` call in a run's script: a page,
a `FloodWait` carrying its mandated wait in seconds, or an exception. -/
inductive PageResp
  | page (p : DiffPage)
  | flood (seconds : Int)
  | err (e : PlatformErr)
deriving DecidableEq, Repr

/-- The `while True` loop of `get_chats_and_users` on a flood-free script of
pages: apply `stepPage` until it leaves the loop or the script is exhausted. -/
def runPages : AggState → List DiffPage → AggState
  | st, [] => st
  | st, p :: rest =>
    match stepPage st p with
    | .done st' => st'
    | .more st' => runPages st' rest

/-- `get_chats_and_users` (main.py:107-223) on a script of invoke outcomes,
from an arbitrary state: a page drives one loop iteration; a `FloodWait` is
caught (main.py:217-219), the wait is logged, and the whole function
restarts from `initState` on the remaining script; any other exception is
wrapped into a generic `Exception` message (main.py:220-221). The second
component of a success is the list of performed flood sleeps. -/
def runAgg : AggState → List PageResp → Except PyStr (AggState × List Int)
  | st, [] => .ok (st, [])
  | _, .flood s :: rest =>
    match runAgg initState rest with
    | .ok (a, sl) => .ok (a, s :: sl)
    | .error m => .error m
  | _, .err e :: _ =>
    .error (s2p "Error fetching chats and users: " ++ errStr e)
  | st, .page p :: rest =>
    match stepPage st p with
    | .done st' => .ok (st', [])
    | .more st' => runAgg st' rest

/-- The top-level `get_chats_and_users` call: fresh accumulators, initial
cursor `pts = 1, date = 1, qts = 1`. -/
def get_chats_and_users (script : List PageResp) : Except PyStr (AggState × List Int) :=
  runAgg initState script

/-- Session lifecycle events observable from the handler: a successful
`client.start()` and a `client.stop()`. -/
inductive Ev
  | opened
  | closed
deriving DecidableEq, Repr

/-- Body of an HTTP response: an error object `{"error": msg}` or the
success payload. -/
inductive RespBody
  | failure (msg : PyStr)
  | success (bot : BotInfo) (chats : List Chat) (users : List User)
deriving DecidableEq, Repr

/-- An HTTP response: status code and JSON body. -/
structure HttpResp where
  status : Nat
  body : RespBody
deriving DecidableEq, Repr

/-- The environment one `/tgusers` request runs against: its query
parameter and the platform's behaviour on each call the handler makes. -/
structure Env where
  token : Option PyStr
  startResult : Option PlatformErr
  getMeResult : Except PlatformErr BotInfo
  script : List PageResp
deriving Repr

/-- `create_client` (main.py:69-82): any exception raised while starting the
client — an authentication `RPCError` included — is re-raised as a plain
`Exception("Failed to initialize client: " + str(e))`. -/
def create_client (startResult : Option PlatformErr) : Except PlatformErr Unit :=
  match startResult with
  | some e => .error (.exc (s2p "Failed to initialize client: " ++ errStr e))
  | none => .ok ()

/-- The `/tgusers` handler `get_bot_data` (main.py:327-364), returning the
HTTP response and the trace of session events. Missing/empty token returns
400 immediately; exceptions reaching the handler map to 400 for `RPCError`
and 500 otherwise (main.py:361-364); `client.stop()` runs only on the
success path (main.py:350). -/
def get_bot_data (env : Env) : HttpResp × List Ev :=
  if truthyStr env.token = false then
    (⟨400, .failure (s2p "Bot token is required")⟩, [])
  else
    match create_client env.startResult with
    | .error (.rpc m) => (⟨400, .failure (s2p "Telegram API error: " ++ m)⟩, [])
    | .error (.exc m) => (⟨500, .failure (s2p "Internal server error: " ++ m)⟩, [])
    | .ok _ =>
      match env.getMeResult with
      | .error (.rpc m) =>
        (⟨400, .failure (s2p "Telegram API error: " ++ m)⟩, [Ev.opened])
      | .error (.exc m) =>
        (⟨500, .failure (s2p "Internal server error: " ++ m)⟩, [Ev.opened])
      | .ok me =>
        match get_chats_and_users env.script with
        | .error m =>
          (⟨500, .failure (s2p "Internal server error: " ++ m)⟩, [Ev.opened])
        | .ok (st, _) =>
          (⟨200, .success me (st.chats.map Prod.snd) (st.users.map Prod.snd)⟩,
            [Ev.opened, Ev.closed])

/-- The per-page termination contract as the (amended) specification words
it: a "full" difference is terminal; a "slice" advances the cursor to the
slice's intermediate state and continues; any other shape stops the loop
only when the page yielded new users or chats, and otherwise the loop
continues with the cursor unchanged. Stated independently of `stepPage` for
a refinement comparison. -/
def specStep (st : AggState) (p : DiffPage) : StepRes :=
  match p.kind with
  | .full => .done (processPage st p).1
  | .slice a b c => .more (setCursor (processPage st p).1 a b c)
  | .other =>
    if (processPage st p).2 then .done (processPage st p).1
    else .more (processPage st p).1

/-- The loop continues (never breaks) through every page of the list,
starting from the given state. -/
def allMoreB : AggState → List DiffPage → Bool
  | _, [] => true
  | st, p :: rest =>
    match stepPage st p with
    | .more st' => allMoreB st' rest
    | .done _ => false

/-- The state a step result carries, whether the loop continues or stops. -/
def stateOf : StepRes → AggState
  | .more st => st
  | .done st => st

/-- A response of an unrecognized shape carrying no users, chats or
messages (e.g. `updates.DifferenceEmpty`). -/
def emptyOtherPage : DiffPage :=
  { users := [], chats := [], new_messages := [], kind := .other }

/-- First observation of chat id 1: no members_count, no username. -/
def rawChatA : RawChat :=
  { id := 1, className := s2p "Chat", members_count := none,
    title := some (s2p "Alpha"), first_name := none, username := none, mtype := none }

/-- Second observation of chat id 1: members_count 5 and a username. -/
def rawChatB : RawChat :=
  { id := 1, className := s2p "Chat", members_count := some 5,
    title := some (s2p "Beta"), first_name := none,
    username := some (s2p "beta_chat"), mtype := none }

/-- A slice page carrying the first observation of chat id 1. -/
def pageSliceA : DiffPage :=
  { users := [], chats := [rawChatA], new_messages := [], kind := .slice 50 60 70 }

/-- A terminal page carrying the second observation of chat id 1. -/
def pageFullB : DiffPage :=
  { users := [], chats := [rawChatB], new_messages := [], kind := .full }

/-- A two-page run observing chat id 1 on both pages. -/
def scriptC1 : List PageResp := [.page pageSliceA, .page pageFullB]

/-- An accessible observation of chat id 7. -/
def rawGood7 : RawChat :=
  { id := 7, className := s2p "Chat", members_count := some 2,
    title := some (s2p "Good"), first_name := none, username := none, mtype := none }

/-- A forbidden observation of chat id 7. -/
def rawForb7 : RawChat :=
  { id := 7, className := s2p "ChatForbidden", members_count := none,
    title := some (s2p "Gone"), first_name := none, username := none, mtype := none }

/-- A run observing chat id 7 normally first, then as forbidden. -/
def scriptC3 : List PageResp :=
  [.page { users := [], chats := [rawGood7], new_messages := [], kind := .slice 2 2 2 },
   .page { users := [], chats := [rawForb7], new_messages := [], kind := .full }]

/-- A terminal page carrying the accessible observation of chat id 7. -/
def pageGood7 : DiffPage :=
  { users := [], chats := [rawGood7], new_messages := [], kind := .full }

/-- A state whose exclusion set already holds chat id 7 and whose chats
dict does not. -/
def stExcl7 : AggState :=
  { chats := [], users := [], inaccessible := [7], pts := 1, date := 1, qts := 1 }

/-- The final aggregation state of the `scriptC3` run. -/
def stC3 : AggState :=
  match get_chats_and_users scriptC3 with
  | .ok (st, _) => st
  | .error _ => initState

/-- A raw user whose `premium` attribute is absent. -/
def rawUserX : RawUser :=
  { id := 9, first_name := some (s2p "U"), last_name := none,
    username := none, premium := none }

/-- A bot self-description used by the request environments below. -/
def cBot : BotInfo := { first_name := s2p "B", id := 10, username := some (s2p "b_bot") }

/-- A request with no token query parameter. -/
def envNoToken : Env :=
  { token := none, startResult := none, getMeResult := .ok cBot, script := [] }

/-- A request whose `client.start()` fails with an authentication
`RPCError`. -/
def envAuthFail : Env :=
  { token := some (s2p "t"), startResult := some (.rpc (s2p "ACCESS_TOKEN_INVALID")),
    getMeResult := .ok cBot, script := [] }

/-- A request whose session starts but whose `get_me` call raises an
`RPCError`. -/
def envLeak : Env :=
  { token := some (s2p "t"), startResult := none,
    getMeResult := .error (.rpc (s2p "PEER_ID_INVALID")), script := [] }

theorem lowerCp_idem (c : Nat) : lowerCp (lowerCp c) = lowerCp c := by
  by_cases h : 65 ≤ c ∧ c ≤ 90
  · simp only [lowerCp, if_pos h]
    have : ¬ (65 ≤ c + 32 ∧ c + 32 ≤ 90) := by omega
    simp only [if_neg this]
  · simp only [lowerCp, if_neg h]

theorem pyLower_idem (s : PyStr) : pyLower (pyLower s) = pyLower s := by
  induction s with
  | nil => rfl
  | cons c cs ih =>
    simp only [pyLower, List.map_cons] at *
    rw [lowerCp_idem]
    exact congrArg _ ih

theorem normalize_eq_of_not_key (s : PyStr)
    (h1 : pyLower s ≠ s2p "chat") (h2 : pyLower s ≠ s2p "channel")
    (h3 : pyLower s ≠ s2p "chatforbidden") (h4 : pyLower s ≠ s2p "channelforbidden") :
    normalize_chat_type s = pyLower s := by
  simp only [normalize_chat_type, if_neg h1, if_neg h2, if_neg h3, if_neg h4]

/-- Claim C9: type normalization is idempotent — applying
`normalize_chat_type` to its own output returns that output unchanged, for
every input string. -/
theorem claim_C9_normalize_idem (s : PyStr) :
    normalize_chat_type (normalize_chat_type s) = normalize_chat_type s := by
  by_cases h1 : pyLower s = s2p "chat"
  · have e : normalize_chat_type s = s2p "chat" := by
      simp only [normalize_chat_type, if_pos h1]
    rw [e]; decide
  · by_cases h2 : pyLower s = s2p "channel"
    · have e : normalize_chat_type s = s2p "channel" := by
        simp only [normalize_chat_type, if_neg h1, if_pos h2]
      rw [e]; decide
    · by_cases h3 : pyLower s = s2p "chatforbidden"
      · have e : normalize_chat_type s = s2p "chat" := by
          simp only [normalize_chat_type, if_neg h1, if_neg h2, if_pos h3]
        rw [e]; decide
      · by_cases h4 : pyLower s = s2p "channelforbidden"
        · have e : normalize_chat_type s = s2p "channel" := by
            simp only [normalize_chat_type, if_neg h1, if_neg h2, if_neg h3, if_pos h4]
          rw [e]; decide
        · have e := normalize_eq_of_not_key s h1 h2 h3 h4
          have e2 := normalize_eq_of_not_key (pyLower s)
            (by rw [pyLower_idem]; exact h1) (by rw [pyLower_idem]; exact h2)
            (by rw [pyLower_idem]; exact h3) (by rw [pyLower_idem]; exact h4)
          rw [e, e2, pyLower_idem]

/-- Claim C4 counterexample: the normalization of the code does not map
unrecognized tags to "unknown" (e.g. "supergroup" maps to itself), and its
output "chat" lies outside the claimed category set
(private, group, supergroup, channel). -/
theorem claim_C4_counterexample :
    normalize_chat_type (s2p "supergroup") ≠ s2p "unknown" ∧
    normalize_chat_type (s2p "chat") ≠ s2p "private" ∧
    normalize_chat_type (s2p "chat") ≠ s2p "group" ∧
    normalize_chat_type (s2p "chat") ≠ s2p "supergroup" ∧
    normalize_chat_type (s2p "chat") ≠ s2p "channel" := by decide

/-- Claim C4 (amended): type normalization is a pure, total function on
strings; it is case-insensitive (the result only depends on the lowercased
tag); the four table keys chat, channel, chatforbidden and channelforbidden
map to chat, chat, channel and channel respectively; and every other tag
maps to its own lowercased form. -/
theorem claim_C4_amended (s : PyStr) :
    normalize_chat_type s = normalize_chat_type (pyLower s) ∧
    (pyLower s ≠ s2p "chat" → pyLower s ≠ s2p "channel" →
      pyLower s ≠ s2p "chatforbidden" → pyLower s ≠ s2p "channelforbidden" →
      normalize_chat_type s = pyLower s) ∧
    normalize_chat_type (s2p "chat") = s2p "chat" ∧
    normalize_chat_type (s2p "channel") = s2p "channel" ∧
    normalize_chat_type (s2p "chatforbidden") = s2p "chat" ∧
    normalize_chat_type (s2p "channelforbidden") = s2p "channel" := by
  refine ⟨?_, ?_, by decide, by decide, by decide, by decide⟩
  · simp only [normalize_chat_type, pyLower_idem]
  · intro h1 h2 h3 h4
    exact normalize_eq_of_not_key s h1 h2 h3 h4

/-- Claim C4 witness: the amended theorem applied to the concrete
unrecognized tag "Supergroup". -/
theorem claim_C4_amended_witness :
    normalize_chat_type (s2p "Supergroup") = pyLower (s2p "Supergroup") :=
  (claim_C4_amended (s2p "Supergroup")).2.1 (by decide) (by decide) (by decide) (by decide)

/-- Claim C2 counterexample: a page of an unrecognized shape that yields no
new users and no new chats does not stop the loop — `stepPage` continues
with the state (the cursor included) completely unchanged, so the loop can
spin forever on the same cursor, contrary to the claim that any other or
empty response shape stops the loop defensively. -/
theorem claim_C2_counterexample :
    emptyOtherPage.kind = DiffKind.other ∧
    stepPage initState emptyOtherPage = StepRes.more initState := by decide

/-- Claim C2 (amended): every page is handled by exactly this case split —
a "full" difference terminates the loop; a "slice" advances the cursor to
the slice's intermediate state and continues (also on pages yielding no new
users and no new chats); any other shape stops the loop only when the page
yielded new users or chats, and otherwise the loop continues with the
cursor unchanged. `stepPage` (the code) coincides with `specStep` (that
case split). -/
theorem claim_C2_amended (st : AggState) (p : DiffPage) :
    stepPage st p = specStep st p := by
  cases hk : p.kind <;> by_cases hb : (processPage st p).2 = true <;>
    simp [stepPage, specStep, hk, hb]

/-- Claim C8: a `/tgusers` request whose token query parameter is missing
or empty gets exactly HTTP 400 with body error "Bot token is required",
and no client session event occurs. -/
theorem claim_C8_missing_token (env : Env) (h : truthyStr env.token = false) :
    get_bot_data env = (⟨400, .failure (s2p "Bot token is required")⟩, []) := by
  simp [get_bot_data, h]

/-- Claim C8 witness: the theorem applied to a concrete request without a
token. -/
theorem claim_C8_missing_token_witness :
    get_bot_data envNoToken =
      (⟨400, RespBody.failure (s2p "Bot token is required")⟩, []) :=
  claim_C8_missing_token envNoToken (by decide)

/-- Claim C5 counterexample: an authentication failure (an `RPCError`
raised while starting the client) is re-wrapped by `create_client` into a
plain exception, so the handler answers HTTP 500 "Internal server error:
Failed to initialize client: ..." — not the claimed HTTP 400
"Telegram API error: ...". -/
theorem claim_C5_counterexample :
    (get_bot_data envAuthFail).1.status = 500 ∧
    (get_bot_data envAuthFail).1.body =
      RespBody.failure (s2p "Internal server error: Failed to initialize client: ACCESS_TOKEN_INVALID") := by
  decide

/-- Claim C5 (amended): with a token present, an `RPCError` reaching the
handler directly (raised while fetching the bot info) yields HTTP 400 with
"Telegram API error: msg"; every failure during client initialization is
wrapped by `create_client` and yields HTTP 500 with "Internal server error:
Failed to initialize client: msg" even when the underlying failure was an
authentication or RPC error; a non-RPC failure of the bot-info fetch and
every failure of the aggregation (which wraps its own exceptions) yield
HTTP 500 with "Internal server error: msg". -/
theorem claim_C5_amended (env : Env) (ht : truthyStr env.token = true) :
    (∀ e, env.startResult = some e →
      get_bot_data env =
        (⟨500, .failure (s2p "Internal server error: " ++
          (s2p "Failed to initialize client: " ++ errStr e))⟩, [])) ∧
    (∀ m, env.startResult = none → env.getMeResult = .error (.rpc m) →
      get_bot_data env =
        (⟨400, .failure (s2p "Telegram API error: " ++ m)⟩, [Ev.opened])) ∧
    (∀ m, env.startResult = none → env.getMeResult = .error (.exc m) →
      get_bot_data env =
        (⟨500, .failure (s2p "Internal server error: " ++ m)⟩, [Ev.opened])) ∧
    (∀ me m, env.startResult = none → env.getMeResult = .ok me →
      get_chats_and_users env.script = .error m →
      get_bot_data env =
        (⟨500, .failure (s2p "Internal server error: " ++ m)⟩, [Ev.opened])) := by
  refine ⟨?_, ?_, ?_, ?_⟩
  · intro e he
    simp [get_bot_data, ht, create_client, he]
  · intro m hs hm
    simp [get_bot_data, ht, create_client, hs, hm]
  · intro m hs hm
    simp [get_bot_data, ht, create_client, hs, hm]
  · intro me m hs hm hagg
    simp [get_bot_data, ht, create_client, hs, hm, hagg]

/-- Claim C5 witness: the amended theorem applied to the concrete request
whose client start fails with an authentication RPC error. -/
theorem claim_C5_amended_witness :
    get_bot_data envAuthFail =
      (⟨500, RespBody.failure (s2p "Internal server error: " ++
        (s2p "Failed to initialize client: " ++
          errStr (PlatformErr.rpc (s2p "ACCESS_TOKEN_INVALID"))))⟩, []) :=
  (claim_C5_amended envAuthFail (by decide)).1
    (PlatformErr.rpc (s2p "ACCESS_TOKEN_INVALID")) rfl

/-- Claim C6 failing input: after the client session is successfully
started, a request whose bot-info fetch raises an `RPCError` returns HTTP
400 with the session still open — the trace records the session opening but
no stop event, because `client.stop()` only runs on the success path. -/
theorem claim_C6_failing_eval :
    (get_bot_data envLeak).1.status = 400 ∧
    (get_bot_data envLeak).2 = [Ev.opened] ∧
    Ev.closed ∉ (get_bot_data envLeak).2 := by decide

/-- Claim C1 failing input: chat id 1 is observed on two pages, the second
time with members_count 5 and a username; the stored record keeps the first
observation unchanged (members_count and username both absent), because the
merge call sits inside the already-seen guard, so later observations are
dropped instead of merged. -/
theorem claim_C1_failing_eval :
    rawChatB.members_count = some 5 ∧
    rawChatB.username = some (s2p "beta_chat") ∧
    (match get_chats_and_users scriptC1 with
     | .ok (st, _) => dictGet st.chats 1
     | .error _ => none) = some (chatFromRaw rawChatA) ∧
    (chatFromRaw rawChatA).members_count = none ∧
    (chatFromRaw rawChatA).username = none := by decide

theorem dictGet_set_ne {α : Type} (d : List (Int × α)) (k i : Int) (v : α)
    (h : k ≠ i) : dictGet (dictSet d k v) i = dictGet d i := by
  induction d with
  | nil => simp [dictSet, dictGet, h]
  | cons p rest ih =>
    obtain ⟨k', v'⟩ := p
    by_cases hk : k' = k
    · subst hk
      simp [dictSet, dictGet, h]
    · simp only [dictSet, if_neg hk, dictGet]
      by_cases hi : k' = i
      · simp [hi]
      · simp [hi, ih]

theorem mem_setAdd_of_mem (s : List Int) (i j : Int) (h : j ∈ s) :
    j ∈ setAdd s i := by
  unfold setAdd
  split
  · exact h
  · exact List.mem_append_left _ h

/-- The exclusion invariant of claim C3: the id is excluded and has no
stored record. -/
def Excl (i : Int) (st : AggState) : Prop :=
  i ∈ st.inaccessible ∧ dictGet st.chats i = none

theorem foldl_pres {σ β : Type} (P : σ → Prop) (f : σ → β → σ)
    (hf : ∀ a b, P a → P (f a b)) :
    ∀ (l : List β) (a : σ), P a → P (l.foldl f a) := by
  intro l
  induction l with
  | nil => intro a h; exact h
  | cons x xs ih => intro a h; exact ih _ (hf a x h)

theorem addChat_excl (i : Int) (mk : RawChat → Chat) (st : AggState × Bool)
    (c : RawChat) (h : Excl i st.1) : Excl i (addChat mk st c).1 := by
  unfold addChat
  by_cases hseen : dictHas st.1.chats c.id = true ∨ c.id ∈ st.1.inaccessible
  · simpa [hseen] using h
  · by_cases hforb : isForbidden c = true
    · refine ⟨?_, ?_⟩
      · simp only [if_neg hseen, hforb, if_pos rfl]
        exact mem_setAdd_of_mem _ _ _ h.1
      · simp only [if_neg hseen, hforb, if_pos rfl]
        exact h.2
    · have hne : c.id ≠ i := by
        intro he
        exact hseen (Or.inr (he ▸ h.1))
      refine ⟨?_, ?_⟩
      · simp only [if_neg hseen, hforb]
        simpa using h.1
      · simp only [if_neg hseen, hforb]
        simpa [dictGet_set_ne _ _ _ _ hne] using h.2

theorem addMsg_excl (i : Int) (st : AggState × Bool) (m : MsgUpdate)
    (h : Excl i st.1) : Excl i (addMsg st m).1 := by
  unfold addMsg
  split
  · match m.chat with
    | some c => exact addChat_excl i chatFromMsg st c h
    | none => exact h
  · exact h

theorem processPage_excl (i : Int) (st : AggState) (p : DiffPage)
    (h : Excl i st) : Excl i (processPage st p).1 := by
  unfold processPage
  have h1 : Excl i { st with users := p.users.foldl (fun d u => dictSet d u.id (mkUser u)) st.users } :=
    h
  have h2 := foldl_pres (fun r : AggState × Bool => Excl i r.1)
    (addChat chatFromRaw) (fun a b ha => addChat_excl i chatFromRaw a b ha)
    p.chats (_, false) h1
  exact foldl_pres (fun r : AggState × Bool => Excl i r.1)
    addMsg (fun a b ha => addMsg_excl i a b ha) p.new_messages _ h2

theorem setCursor_excl (i : Int) (st : AggState) (a b c : Int)
    (h : Excl i st) : Excl i (setCursor st a b c) := h

theorem stepPage_excl (i : Int) (st : AggState) (p : DiffPage)
    (h : Excl i st) : Excl i (stateOf (stepPage st p)) := by
  have hp := processPage_excl i st p h
  unfold stepPage
  cases hk : p.kind <;> by_cases hb : (processPage st p).2 = true <;>
    simp [hk, hb, stateOf] <;> exact hp

theorem runPages_excl (i : Int) (ps : List DiffPage) (st : AggState)
    (h : Excl i st) : Excl i (runPages st ps) := by
  induction ps generalizing st with
  | nil => exact h
  | cons p rest ih =>
    have hstep := stepPage_excl i st p h
    unfold runPages
    cases hs : stepPage st p with
    | done st' =>
      rw [hs] at hstep
      exact hstep
    | more st' =>
      rw [hs] at hstep
      exact ih st' hstep

/-- Claim C3 counterexample: chat id 7 is observed normally on the first
page and as a forbidden variant on the second; the forbidden observation is
skipped by the already-seen guard (it is not even added to the exclusion
set) and the record for id 7 remains in the final chats collection —
contrary to the claim that an id ever observed as forbidden never appears. -/
theorem claim_C3_counterexample :
    isForbidden rawForb7 = true ∧
    (match get_chats_and_users scriptC3 with
     | .ok (st, _) => dictHas st.chats 7
     | .error _ => false) = true ∧
    (match get_chats_and_users scriptC3 with
     | .ok (st, _) => decide (7 ∈ st.inaccessible)
     | .error _ => true) = false := by decide

theorem mem_setAdd_self (s : List Int) (i : Int) : i ∈ setAdd s i := by
  unfold setAdd
  split
  · assumption
  · exact List.mem_append_right _ (List.mem_singleton_self i)

theorem addChat_excl_entry (mk : RawChat → Chat) (st : AggState × Bool)
    (c : RawChat) (hforb : isForbidden c = true)
    (hns : dictGet st.1.chats c.id = none) : Excl c.id (addChat mk st c).1 := by
  unfold addChat
  by_cases hseen : dictHas st.1.chats c.id = true ∨ c.id ∈ st.1.inaccessible
  · have hmem : c.id ∈ st.1.inaccessible := by
      rcases hseen with h | h
      · exact absurd h (by simp [dictHas, hns])
      · exact h
    simp only [if_pos hseen]
    exact ⟨hmem, hns⟩
  · simp only [if_neg hseen, hforb, if_pos rfl]
    exact ⟨mem_setAdd_self _ _, hns⟩

/-- Claim C3 (amended): a forbidden observation of a chat id made while no
record for it is stored puts the id into the exclusion set without storing
a record; from then on every construct of the run — the rest of the page's
chats fold, the page's new-messages fold, the loop step, and the loop over
all remaining pages — keeps the id excluded and never stores a record for
it, so no record for the id appears in the final chats collection. (A
forbidden observation of an id that already has a stored record, however,
is skipped by the already-seen guard and the record remains.) -/
theorem claim_C3_amended :
    (∀ (mk : RawChat → Chat) (st : AggState × Bool) (c : RawChat),
        isForbidden c = true → dictGet st.1.chats c.id = none →
        c.id ∈ (addChat mk st c).1.inaccessible ∧
        dictGet (addChat mk st c).1.chats c.id = none) ∧
    (∀ (i : Int) (sts : AggState × Bool) (cs : List RawChat),
        i ∈ sts.1.inaccessible → dictGet sts.1.chats i = none →
        i ∈ (cs.foldl (addChat chatFromRaw) sts).1.inaccessible ∧
        dictGet (cs.foldl (addChat chatFromRaw) sts).1.chats i = none) ∧
    (∀ (i : Int) (sts : AggState × Bool) (ms : List MsgUpdate),
        i ∈ sts.1.inaccessible → dictGet sts.1.chats i = none →
        i ∈ (ms.foldl addMsg sts).1.inaccessible ∧
        dictGet (ms.foldl addMsg sts).1.chats i = none) ∧
    (∀ (i : Int) (st : AggState) (p : DiffPage),
        i ∈ st.inaccessible → dictGet st.chats i = none →
        i ∈ (stateOf (stepPage st p)).inaccessible ∧
        dictGet (stateOf (stepPage st p)).chats i = none) ∧
    (∀ (i : Int) (st : AggState) (ps : List DiffPage),
        i ∈ st.inaccessible → dictGet st.chats i = none →
        dictGet (runPages st ps).chats i = none ∧
        i ∈ (runPages st ps).inaccessible) := by
  refine ⟨?_, ?_, ?_, ?_, ?_⟩
  · intro mk st c hforb hns
    exact addChat_excl_entry mk st c hforb hns
  · intro i sts cs h1 h2
    exact foldl_pres (fun r : AggState × Bool => Excl i r.1)
      (addChat chatFromRaw) (fun a b ha => addChat_excl i chatFromRaw a b ha)
      cs sts ⟨h1, h2⟩
  · intro i sts ms h1 h2
    exact foldl_pres (fun r : AggState × Bool => Excl i r.1)
      addMsg (fun a b ha => addMsg_excl i a b ha) ms sts ⟨h1, h2⟩
  · intro i st p h1 h2
    exact stepPage_excl i st p ⟨h1, h2⟩
  · intro i st ps h1 h2
    have h := runPages_excl i ps st ⟨h1, h2⟩
    exact ⟨h.2, h.1⟩

/-- Claim C3 witness: the amended theorem applied concretely — the
forbidden observation of chat id 7 from the fresh initial state enters the
exclusion set without storing a record, and a run from a state excluding
id 7 over a page observing id 7 normally still stores no record for it. -/
theorem claim_C3_amended_witness :
    (7 ∈ (addChat chatFromRaw (initState, false) rawForb7).1.inaccessible ∧
      dictGet (addChat chatFromRaw (initState, false) rawForb7).1.chats 7 = none) ∧
    (dictGet (runPages stExcl7 [pageGood7]).chats 7 = none ∧
      7 ∈ (runPages stExcl7 [pageGood7]).inaccessible) :=
  ⟨claim_C3_amended.1 chatFromRaw (initState, false) rawForb7 (by decide) rfl,
   claim_C3_amended.2.2.2.2 7 stExcl7 [pageGood7] (by decide) rfl⟩

theorem runAgg_flood_restart (pre : List DiffPage) (s : Int)
    (rest : List PageResp) :
    ∀ st : AggState, allMoreB st pre = true →
      runAgg st (pre.map PageResp.page ++ PageResp.flood s :: rest) =
        match runAgg initState rest with
        | .ok (a, sl) => .ok (a, s :: sl)
        | .error m => .error m := by
  induction pre with
  | nil =>
    intro st _
    rfl
  | cons p pre' ih =>
    intro st hall
    unfold allMoreB at hall
    cases hs : stepPage st p with
    | done st' =>
      rw [hs] at hall
      exact absurd hall (by simp)
    | more st' =>
      rw [hs] at hall
      have : runAgg st ((p :: pre').map PageResp.page ++ PageResp.flood s :: rest) =
          runAgg st' (pre'.map PageResp.page ++ PageResp.flood s :: rest) := by
        simp only [List.map_cons, List.cons_append, runAgg, hs, List.append_eq]
      rw [this]
      exact ih st' hall

/-- Claim C7: when the platform signals a rate limit (flood wait of `s`
seconds) after some pages that all kept the loop going, the aggregation
sleeps exactly `s` (the sleep log gains `s` in front) and restarts from
scratch — the final result equals a fresh `get_chats_and_users` run (empty
chats, users and exclusion set, cursor `pts = 1, date = 1, qts = 1`) on the
remaining script, with no pre-restart progress mixed in and no error
surfaced for the flood itself. -/
theorem claim_C7_flood_restart (pre : List DiffPage) (s : Int)
    (rest : List PageResp) (h : allMoreB initState pre = true) :
    get_chats_and_users (pre.map PageResp.page ++ PageResp.flood s :: rest) =
      match get_chats_and_users rest with
      | .ok (a, sl) => .ok (a, s :: sl)
      | .error m => .error m :=
  runAgg_flood_restart pre s rest initState h

/-- Claim C7 witness: the theorem applied to a one-page prefix followed by a
3-second flood wait and an empty remaining script. -/
theorem claim_C7_flood_restart_witness :
    get_chats_and_users ([pageSliceA].map PageResp.page ++ PageResp.flood 3 :: []) =
      match get_chats_and_users [] with
      | .ok (a, sl) => .ok (a, 3 :: sl)
      | .error m => .error m :=
  claim_C7_flood_restart [pageSliceA] 3 [] (by decide)

theorem orElseStr_ne_nil (a : Option PyStr) (d : PyStr) (h : d ≠ []) :
    orElseStr a d ≠ [] := by
  match a with
  | none => simpa [orElseStr] using h
  | some s =>
    cases hs : s.isEmpty with
    | true => simpa [orElseStr, hs] using h
    | false =>
      simp only [orElseStr, hs, Bool.false_eq_true, if_false]
      intro hn
      rw [hn] at hs
      simp at hs

theorem orElseStr_falsy (a : Option PyStr) (d : PyStr)
    (h : truthyStr a = false) : orElseStr a d = d := by
  match a with
  | none => rfl
  | some s =>
    simp only [truthyStr, Bool.not_eq_false'] at h
    simp [orElseStr, h]

theorem chatTitle_ne_nil (c : RawChat) : chatTitle c ≠ [] :=
  orElseStr_ne_nil _ _ (orElseStr_ne_nil _ _ (by decide))

theorem dictGet_mem {α : Type} (d : List (Int × α)) (k : Int) (v : α)
    (h : dictGet d k = some v) : (k, v) ∈ d := by
  induction d with
  | nil => simp [dictGet] at h
  | cons p rest ih =>
    obtain ⟨k', v'⟩ := p
    simp only [dictGet] at h
    split at h
    · rename_i hk
      obtain rfl := Option.some.inj h
      rw [hk]
      exact List.mem_cons_self _ _
    · exact List.mem_cons_of_mem _ (ih h)

theorem mem_dictSet {α : Type} (d : List (Int × α)) (k : Int) (v : α)
    (p : Int × α) (h : p ∈ dictSet d k v) : p = (k, v) ∨ p ∈ d := by
  induction d with
  | nil =>
    simp only [dictSet, List.mem_singleton] at h
    exact Or.inl h
  | cons q rest ih =>
    obtain ⟨k', v'⟩ := q
    simp only [dictSet] at h
    split at h
    · simp only [List.mem_cons] at h
      rcases h with h | h
      · exact Or.inl h
      · exact Or.inr (List.mem_cons_of_mem _ h)
    · simp only [List.mem_cons] at h
      rcases h with h | h
      · exact Or.inr (by simp [h])
      · rcases ih h with h1 | h1
        · exact Or.inl h1
        · exact Or.inr (List.mem_cons_of_mem _ h1)

/-- All stored chat records carry a non-empty title. -/
def TitleInv (d : List (Int × Chat)) : Prop := ∀ p ∈ d, p.2.title ≠ []

theorem merge_title_ne (e : Option Chat) (cd : Chat)
    (he : ∀ x, e = some x → x.title ≠ []) (hc : cd.title ≠ []) :
    (merge_chat_data e cd).title ≠ [] := by
  match e with
  | none => exact hc
  | some x =>
    simp only [merge_chat_data]
    by_cases ht : cd.title = s2p "Unknown"
    · simp only [ht, if_pos rfl]
      exact he x rfl
    · simp only [if_neg ht]
      exact hc

theorem addChat_title (mk : RawChat → Chat) (hmk : ∀ c, (mk c).title ≠ [])
    (st : AggState × Bool) (c : RawChat) (h : TitleInv st.1.chats) :
    TitleInv (addChat mk st c).1.chats := by
  unfold addChat
  by_cases hseen : dictHas st.1.chats c.id = true ∨ c.id ∈ st.1.inaccessible
  · simpa [hseen] using h
  · by_cases hforb : isForbidden c = true
    · simp only [if_neg hseen, hforb, if_pos rfl]
      exact h
    · simp only [if_neg hseen, hforb, Bool.false_eq_true, if_false]
      intro p hp
      rcases mem_dictSet _ _ _ _ hp with h1 | h1
      · rw [h1]
        exact merge_title_ne _ _ (fun x hx => h _ (dictGet_mem _ _ _ hx)) (hmk c)
      · exact h p h1

theorem addMsg_title (st : AggState × Bool) (m : MsgUpdate)
    (h : TitleInv st.1.chats) : TitleInv (addMsg st m).1.chats := by
  unfold addMsg
  split
  · match m.chat with
    | some c => exact addChat_title chatFromMsg (fun c => chatTitle_ne_nil c) st c h
    | none => exact h
  · exact h

theorem processPage_title (st : AggState) (p : DiffPage)
    (h : TitleInv st.chats) : TitleInv (processPage st p).1.chats := by
  unfold processPage
  have h1 : TitleInv (AggState.chats { st with users := p.users.foldl (fun d u => dictSet d u.id (mkUser u)) st.users }) := h
  have h2 := foldl_pres (fun r : AggState × Bool => TitleInv r.1.chats)
    (addChat chatFromRaw)
    (fun a b ha => addChat_title chatFromRaw (fun c => chatTitle_ne_nil c) a b ha)
    p.chats (_, false) h1
  exact foldl_pres (fun r : AggState × Bool => TitleInv r.1.chats)
    addMsg (fun a b ha => addMsg_title a b ha) p.new_messages _ h2

theorem stepPage_title (st : AggState) (p : DiffPage)
    (h : TitleInv st.chats) : TitleInv (stateOf (stepPage st p)).chats := by
  have hp := processPage_title st p h
  unfold stepPage
  cases hk : p.kind <;> by_cases hb : (processPage st p).2 = true <;>
    simp [hk, hb, stateOf] <;> exact hp

theorem runAgg_title (script : List PageResp) :
    ∀ (st0 : AggState), TitleInv st0.chats →
      ∀ (st : AggState) (sl : List Int),
        runAgg st0 script = .ok (st, sl) → TitleInv st.chats := by
  induction script with
  | nil =>
    intro st0 h st sl he
    simp only [runAgg, Except.ok.injEq, Prod.mk.injEq] at he
    rw [← he.1]
    exact h
  | cons r rest ih =>
    intro st0 h st sl he
    match r with
    | .flood s =>
      unfold runAgg at he
      cases hr : runAgg initState rest with
      | ok pr =>
        rw [hr] at he
        simp only [Except.ok.injEq, Prod.mk.injEq] at he
        have hinit : TitleInv initState.chats := by
          intro p hp
          simp [initState] at hp
        have := ih initState hinit pr.1 pr.2 (by rw [hr])
        rw [← he.1]
        exact this
      | error m =>
        rw [hr] at he
        simp at he
    | .err e =>
      simp [runAgg] at he
    | .page p =>
      unfold runAgg at he
      cases hs : stepPage st0 p with
      | done st' =>
        rw [hs] at he
        simp only [Except.ok.injEq, Prod.mk.injEq] at he
        have := stepPage_title st0 p h
        rw [hs] at this
        rw [← he.1]
        exact this
      | more st' =>
        rw [hs] at he
        have := stepPage_title st0 p h
        rw [hs] at this
        exact ih st' this st sl he

/-- Claim C10: every chat record the difference-sync aggregation produces
has a non-empty (hence non-null) title; the title of a freshly built record
is the raw title when that is truthy, else the raw first_name when that is
truthy, else the literal "Unknown"; and a raw user without a premium
attribute yields `is_premium = false` (the `is_premium` field is a `Bool`
by construction, so it is always boolean). -/
theorem claim_C10_defaults :
    (∀ (script : List PageResp) (st : AggState) (sl : List Int),
        get_chats_and_users script = .ok (st, sl) →
        ∀ p ∈ st.chats, p.2.title ≠ []) ∧
    (∀ (c : RawChat) (t : PyStr), c.title = some t → t.isEmpty = false →
        chatTitle c = t) ∧
    (∀ (c : RawChat) (f : PyStr), truthyStr c.title = false →
        c.first_name = some f → f.isEmpty = false → chatTitle c = f) ∧
    (∀ c : RawChat, truthyStr c.title = false → truthyStr c.first_name = false →
        chatTitle c = s2p "Unknown") ∧
    (∀ u : RawUser, u.premium = none → (mkUser u).is_premium = false) := by
  refine ⟨?_, ?_, ?_, ?_, ?_⟩
  · intro script st sl he p hp
    have hinit : TitleInv initState.chats := by
      intro q hq
      simp [initState] at hq
    exact runAgg_title script initState hinit st sl he p hp
  · intro c t ht hne
    simp [chatTitle, orElseStr, ht, hne]
  · intro c f ht hf hne
    rw [chatTitle, orElseStr_falsy _ _ ht]
    simp [orElseStr, hf, hne]
  · intro c ht hf
    rw [chatTitle, orElseStr_falsy _ _ ht, orElseStr_falsy _ _ hf]
  · intro u hu
    simp [mkUser, hu]

/-- Claim C10 witness: the theorem applied to the concrete `scriptC3` run
(whose final state stores the record of chat id 7) and to the concrete raw
user without a premium attribute. -/
theorem claim_C10_defaults_witness :
    (chatFromRaw rawGood7).title ≠ [] ∧ (mkUser rawUserX).is_premium = false :=
  ⟨claim_C10_defaults.1 scriptC3 stC3 [] rfl (7, chatFromRaw rawGood7) (by decide),
   claim_C10_defaults.2.2.2.2 rawUserX rfl⟩
